import Mathlib

/-!
Verification of the MaidSafe-Drive launcher
(`src/maidsafe/drive/tools/launcher.cc`).

The development shallowly embeds the launcher's data model and operations:

* SHA-512 and hex encoding (the external `crypto::Hash<crypto::SHA512>` and
  `HexEncode` calls used by `GetMountStatusSharedMemoryName`) are implemented
  in full, following FIPS 180-4, so that the naming scheme can be evaluated
  on concrete inputs.
* The bootstrap shared-memory channel (`ipc::CreateSharedMemory`,
  `ipc::ReadSharedMemory`, `ipc::RemoveSharedMemory`) is modelled as a name
  to string-list association held in a `World` state.
* The mount-status region, the child process and the OS are modelled by a
  `World` state plus an `Env` oracle fixing the observable outcomes of the
  nondeterministic events (child signals mount in time, child exits, spawn
  fails, ...).
* `Launcher`'s constructor, destructor and `StopDriveProcess` are direct
  transcriptions of the C++ control flow, with exceptions as explicit
  result values and the cleanup-on-throw scope guard inlined at every
  throw site.
-/

set_option maxRecDepth 100000

namespace MaidsafeDrive

/-! ## 64-bit word arithmetic (SHA-512 works on 64-bit words) -/

def w64 : Nat := 2 ^ 64

def add64 (a b : Nat) : Nat := (a + b) % w64

/-- Right rotation of a 64-bit word by `n` bits (0 < n < 64). -/
def rotr64 (x n : Nat) : Nat := ((x >>> n) ||| (x <<< (64 - n))) % w64

/-- Logical right shift of a 64-bit word. -/
def shr64 (x n : Nat) : Nat := x >>> n

/-! ## SHA-512 (FIPS 180-4), as used by `crypto::Hash<crypto::SHA512>` -/

/-- The eight initial hash values of SHA-512. -/
def sha512H0 : List Nat :=
  [7640891576956012808, 13503953896175478587,
   4354685564936845355, 11912009170470909681,
   5840696475078001361, 11170449401992604703,
   2270897969802886507, 6620516959819538809]

/-- The eighty SHA-512 round constants. -/
def sha512K : List Nat :=
  [4794697086780616226, 8158064640168781261,
   13096744586834688815, 16840607885511220156,
   4131703408338449720, 6480981068601479193,
   10538285296894168987, 12329834152419229976,
   15566598209576043074, 1334009975649890238,
   2608012711638119052, 6128411473006802146,
   8268148722764581231, 9286055187155687089,
   11230858885718282805, 13951009754708518548,
   16472876342353939154, 17275323862435702243,
   1135362057144423861, 2597628984639134821,
   3308224258029322869, 5365058923640841347,
   6679025012923562964, 8573033837759648693,
   10970295158949994411, 12119686244451234320,
   12683024718118986047, 13788192230050041572,
   14330467153632333762, 15395433587784984357,
   489312712824947311, 1452737877330783856,
   2861767655752347644, 3322285676063803686,
   5560940570517711597, 5996557281743188959,
   7280758554555802590, 8532644243296465576,
   9350256976987008742, 10552545826968843579,
   11727347734174303076, 12113106623233404929,
   14000437183269869457, 14369950271660146224,
   15101387698204529176, 15463397548674623760,
   17586052441742319658, 1182934255886127544,
   1847814050463011016, 2177327727835720531,
   2830643537854262169, 3796741975233480872,
   4115178125766777443, 5681478168544905931,
   6601373596472566643, 7507060721942968483,
   8399075790359081724, 8693463985226723168,
   9568029438360202098, 10144078919501101548,
   10430055236837252648, 11840083180663258601,
   13761210420658862357, 14299343276471374635,
   14566680578165727644, 15097957966210449927,
   16922976911328602910, 17689382322260857208,
   500013540394364858, 748580250866718886,
   1242879168328830382, 1977374033974150939,
   2944078676154940804, 3659926193048069267,
   4368137639120453308, 4836135668995329356,
   5532061633213252278, 6448918945643986474,
   6902733635092675308, 7801388544844847127]

/-- Big-endian byte decomposition: the `n` bytes of `v`, most significant first. -/
def beBytes (n v : Nat) : List Nat :=
  (List.range n).map fun i => (v >>> (8 * (n - 1 - i))) % 256

/-- A big-endian 64-bit word from eight bytes. -/
def beWord (bs : List Nat) : Nat :=
  bs.foldl (fun acc b => acc * 256 + b) 0

/-- SHA-512 message padding: append `0x80`, then `k` zeros with
`len + 1 + k ≡ 112 (mod 128)`, then the 128-bit big-endian bit length.
`(240 - (len + 1) % 128) % 128` equals that `k` without truncated-subtraction
underflow, since `(len + 1) % 128 ≤ 127 < 240`. -/
def sha512Pad (m : List Nat) : List Nat :=
  m ++ [0x80] ++ List.replicate ((240 - (m.length + 1) % 128) % 128) 0
    ++ beBytes 16 (8 * m.length)

/-- Split a byte list into 128-byte blocks (fuel-structural so that it
reduces in the kernel; `bs.length` fuel always suffices). -/
def chunks128Go : Nat → List Nat → List (List Nat)
  | 0, _ => []
  | _, [] => []
  | fuel + 1, bs => bs.take 128 :: chunks128Go fuel (bs.drop 128)

def chunks128 (bs : List Nat) : List (List Nat) := chunks128Go bs.length bs

/-- The sixteen 64-bit words of one 128-byte block. -/
def blockWords (blk : List Nat) : List Nat :=
  (List.range 16).map fun i => beWord ((blk.drop (8 * i)).take 8)

/-- The SHA-512 small sigma functions used in the message schedule. -/
def ssig0 (x : Nat) : Nat := (rotr64 x 1) ^^^ (rotr64 x 8) ^^^ (shr64 x 7)

def ssig1 (x : Nat) : Nat := (rotr64 x 19) ^^^ (rotr64 x 61) ^^^ (shr64 x 6)

/-- The SHA-512 big sigma functions used in the compression rounds. -/
def bsig0 (x : Nat) : Nat := (rotr64 x 28) ^^^ (rotr64 x 34) ^^^ (rotr64 x 39)

def bsig1 (x : Nat) : Nat := (rotr64 x 14) ^^^ (rotr64 x 18) ^^^ (rotr64 x 41)

/-- Message schedule: extend the sixteen block words to eighty. -/
def sha512Schedule (ws : List Nat) : Nat → List Nat
  | 0 => ws
  | n + 1 =>
    let prev := sha512Schedule ws n
    let t := prev.length
    prev ++ [add64 (add64 (ssig1 (prev.getD (t - 2) 0)) (prev.getD (t - 7) 0))
                   (add64 (ssig0 (prev.getD (t - 15) 0)) (prev.getD (t - 16) 0))]

/-- Working state of the compression function: the eight 64-bit registers. -/
structure Sha512Regs where
  a : Nat
  b : Nat
  c : Nat
  d : Nat
  e : Nat
  f : Nat
  g : Nat
  h : Nat
deriving Repr, DecidableEq

/-- One compression round with round constant `k` and schedule word `w`. -/
def sha512Round (r : Sha512Regs) (k w : Nat) : Sha512Regs :=
  let t1 := add64 (add64 (add64 r.h (bsig1 r.e))
                         (add64 ((r.e &&& r.f) ^^^ ((r.e ^^^ (w64 - 1)) &&& r.g)) k)) w
  let t2 := add64 (bsig0 r.a) ((r.a &&& r.b) ^^^ (r.a &&& r.c) ^^^ (r.b &&& r.c))
  { a := add64 t1 t2, b := r.a, c := r.b, d := r.c,
    e := add64 r.d t1, f := r.e, g := r.f, h := r.g }

/-- Compress one 128-byte block into the running hash (a list of 8 words). -/
def sha512Compress (hs : List Nat) (blk : List Nat) : List Nat :=
  let ws := sha512Schedule (blockWords blk) 64
  let init : Sha512Regs :=
    { a := hs.getD 0 0, b := hs.getD 1 0, c := hs.getD 2 0, d := hs.getD 3 0,
      e := hs.getD 4 0, f := hs.getD 5 0, g := hs.getD 6 0, h := hs.getD 7 0 }
  let fin := (List.range 80).foldl
    (fun r t => sha512Round r (sha512K.getD t 0) (ws.getD t 0)) init
  [add64 (hs.getD 0 0) fin.a, add64 (hs.getD 1 0) fin.b,
   add64 (hs.getD 2 0) fin.c, add64 (hs.getD 3 0) fin.d,
   add64 (hs.getD 4 0) fin.e, add64 (hs.getD 5 0) fin.f,
   add64 (hs.getD 6 0) fin.g, add64 (hs.getD 7 0) fin.h]

/-- SHA-512 of a byte list: the 64-byte digest. -/
def sha512 (m : List Nat) : List Nat :=
  let hs := (chunks128 (sha512Pad m)).foldl sha512Compress sha512H0
  [beBytes 8 (hs.getD 0 0), beBytes 8 (hs.getD 1 0), beBytes 8 (hs.getD 2 0),
   beBytes 8 (hs.getD 3 0), beBytes 8 (hs.getD 4 0), beBytes 8 (hs.getD 5 0),
   beBytes 8 (hs.getD 6 0), beBytes 8 (hs.getD 7 0)].flatten

/-! ## UTF-8 encoding of the hashed string -/

/-- UTF-8 encoding of one character as bytes. -/
def utf8EncodeChar (c : Char) : List Nat :=
  let n := c.toNat
  if n < 0x80 then [n]
  else if n < 0x800 then [0xC0 ||| (n >>> 6), 0x80 ||| (n &&& 0x3F)]
  else if n < 0x10000 then
    [0xE0 ||| (n >>> 12), 0x80 ||| ((n >>> 6) &&& 0x3F), 0x80 ||| (n &&& 0x3F)]
  else
    [0xF0 ||| (n >>> 18), 0x80 ||| ((n >>> 12) &&& 0x3F),
     0x80 ||| ((n >>> 6) &&& 0x3F), 0x80 ||| (n &&& 0x3F)]

/-- The bytes of a string, as hashed by `crypto::Hash` (a `std::string` holds
the UTF-8 bytes). -/
def strBytes (s : String) : List Nat := s.data.flatMap utf8EncodeChar

/-! ## `HexEncode` (maidsafe/common `utils`): lowercase hex of a byte string -/

/-- The lowercase hex alphabet used by `HexEncode`. -/
def hexAlphabet : List Char := "0123456789abcdef".data

def hexDigit (n : Nat) : Char := hexAlphabet.getD n '0'

/-- `HexEncode`: each byte becomes two lowercase hex characters, high nibble
first. -/
def hexEncode (bs : List Nat) : List Char :=
  bs.flatMap fun b => [hexDigit (b / 16 % 16), hexDigit (b % 16)]

/-! ## `GetMountStatusSharedMemoryName` (launcher.cc lines 97-99)

`return HexEncode(crypto::Hash<crypto::SHA512>(initial_shared_memory_name)).substr(0, 32);`
-/

def GetMountStatusSharedMemoryName (initial_shared_memory_name : String) : String :=
  String.mk ((hexEncode (sha512 (strBytes initial_shared_memory_name))).take 32)

/-! ## Errors

The error codes thrown in launcher.cc (`DriveErrors` and `CommonErrors` from
maidsafe/common `error.h`), plus the error kinds of the external collaborators
it calls: shared-memory creation/opening (`boost::interprocess`), the
`maidsafe::Identity` bounded-string constructor, and `std::stoi`. -/

inductive LaunchError where
  | no_drive_letter_available
  | failed_to_mount
  | invalid_parameter
  | uninitialised
  | resource_unavailable
  | not_found
  | invalid_string_size
  | invalid_argument
deriving DecidableEq, Repr

/-! ## `MountStatus` and the OS world

`MountStatus` is declared in `maidsafe/drive/tools/launcher.h` (not among the
provided sources). Modelled from the spec: a mutex, a condition variable and
two booleans `mounted` and `unmount`, both initially false (spec section 3,
"Mount-Status Region"). The mutex and condition variable have no observable
state beyond the waits modelled below, so only the two flags are carried. -/

structure MountStatus where
  mounted : Bool
  unmount : Bool
deriving DecidableEq, Repr

def MountStatus.init : MountStatus := { mounted := false, unmount := false }

/-- The OS-level state the launcher manipulates: the registry of named ipc
segments (bootstrap channel), the registry of named shared-memory regions
(mount-status channel), and whether the spawned child process is running. -/
structure World where
  segments : List (String × List String)
  regions : List (String × MountStatus)
  childRunning : Bool
deriving DecidableEq, Repr

def World.getRegion (w : World) (n : String) : Option MountStatus := w.regions.lookup n

def World.setRegion (w : World) (n : String) (ms : MountStatus) : World :=
  { w with regions := (n, ms) :: w.regions.filter (fun p => p.1 != n) }

/-! ## `maidsafe::Identity` and `std::stoi` -/

/-- `maidsafe::Identity` is a bounded string of exactly 64 bytes; its
constructor throws on any other size. -/
structure Identity where
  idstr : String
deriving DecidableEq, Repr

def mkIdentity (s : String) : Except LaunchError Identity :=
  if s.length = 64 then .ok { idstr := s } else .error .invalid_string_size

/-- `std::stoi`: skip leading whitespace, optional sign, then decimal digits;
throws `invalid_argument` when no digit follows. -/
def stoi (s : String) : Except LaunchError Int :=
  let cs := s.data.dropWhile fun c => c = ' ' ∨ c = '\t' ∨ c = '\n' ∨ c = '\r'
  let signAndRest : Int × List Char :=
    match cs with
    | '+' :: r => (1, r)
    | '-' :: r => (-1, r)
    | r => (1, r)
  let ds := signAndRest.2.takeWhile Char.isDigit
  if ds = [] then .error .invalid_argument
  else .ok (signAndRest.1 * ((ds.foldl (fun a c => a * 10 + (c.toNat - 48)) 0 : Nat) : Int))

/-! ## `Options` (declared in launcher.h)

Modelled from the spec: caller-supplied mount path, storage path, two
64-byte identity tokens, drive name, create-store flag, drive-variant
selector and logging arguments (spec section 3, "Mount Options"), plus the
`mount_status_shared_object_name` output field assigned by
`ReadAndRemoveInitialSharedMemory` (launcher.cc line 110). The drive-variant
selector is a C++ enum, modelled by its underlying integer so that values
outside the four declared variants exist. -/

structure Options where
  mount_path : String
  storage_path : String
  unique_id : Identity
  root_parent_id : Identity
  drive_name : String
  create_store : Bool
  drive_type : Int
  drive_logging_args : String
  mount_status_shared_object_name : String
deriving DecidableEq, Repr

def kLocal : Int := 0
def kLocalConsole : Int := 1
def kNetwork : Int := 2
def kNetworkConsole : Int := 3

/-! ## The ipc bootstrap channel (maidsafe/common `ipc`)

Modelled by the contract in spec section 4.1: `CreateSharedMemory` fails when
the name is in use; `ReadSharedMemory` opens the named segment or fails with
`NotFound`; `RemoveSharedMemory` is idempotent best-effort deletion that
never raises. -/

def ipcCreateSharedMemory (name : String) (args : List String) (w : World) :
    Except LaunchError World :=
  if (w.segments.lookup name).isSome then .error .resource_unavailable
  else .ok { w with segments := (name, args) :: w.segments }

def ipcReadSharedMemory (name : String) (count : Nat) (w : World) :
    Except LaunchError (List String) :=
  match w.segments.lookup name with
  | none => .error .not_found
  | some args => .ok (args.take count)

def ipcRemoveSharedMemory (name : String) (w : World) : World :=
  { w with segments := w.segments.filter (fun p => p.1 != name) }

/-! ## Bootstrap segment write and read

launcher.cc lines 142-151 (`Launcher::CreateInitialSharedMemory`) and
101-113 (`ReadAndRemoveInitialSharedMemory`). The six argument slots are
`kMountPathArg = 0`, `kStoragePathArg`, `kUniqueIdArg`, `kRootParentIdArg`,
`kDriveNameArg`, `kCreateStoreArg`; `kMaxArgIndex = 6`. -/

def kMaxArgIndex : Nat := 6

def bootstrapArgs (options : Options) : List String :=
  [options.mount_path, options.storage_path, options.unique_id.idstr,
   options.root_parent_id.idstr, options.drive_name,
   if options.create_store then "1" else "0"]

def CreateInitialSharedMemory (name : String) (options : Options) (w : World) :
    Except LaunchError World :=
  ipcCreateSharedMemory name (bootstrapArgs options) w

def ReadAndRemoveInitialSharedMemory (name : String) (options : Options) (w : World) :
    Except LaunchError (Options × World) :=
  match ipcReadSharedMemory name kMaxArgIndex w with
  | .error e => .error e
  | .ok args =>
    match mkIdentity (args.getD 2 "") with
    | .error e => .error e
    | .ok uid =>
      match mkIdentity (args.getD 3 "") with
      | .error e => .error e
      | .ok rid =>
        match stoi (args.getD 5 "") with
        | .error e => .error e
        | .ok cs =>
          .ok ({ options with
                 mount_path := args.getD 0 "",
                 storage_path := args.getD 1 "",
                 unique_id := uid,
                 root_parent_id := rid,
                 drive_name := args.getD 4 "",
                 create_store := cs != 0,
                 mount_status_shared_object_name := GetMountStatusSharedMemoryName name },
               ipcRemoveSharedMemory name w)

/-! ## Executable resolution (launcher.cc lines 182-196)

`process::GetOtherExecutablePath` resolves a sibling executable of the
running binary; the pure content of the mapping is the executable
identifier handed to it, which is what is modelled. -/

def GetDriveExecutablePath (drive_type : Int) : Except LaunchError String :=
  if drive_type = kLocal then .ok "local_drive"
  else if drive_type = kLocalConsole then .ok "local_drive_console"
  else if drive_type = kNetwork then .ok "network_drive"
  else if drive_type = kNetworkConsole then .ok "network_drive_console"
  else .error .invalid_parameter

/-! ## Drive-letter scan (launcher.cc lines 47-57, Windows only)

`GetLogicalDrives()` returns a 32-bit mask whose bit `i` is set when drive
letter `'A' + i` is assigned. The loop starts at `mask = 0x4`, `path = "C:"`
and increments the letter while the current bit is set; `mask <<= 1` is
32-bit arithmetic. 67 and 90 are the codes of `'C'` and `'Z'`. -/

def driveLetterScan : Nat → Nat → Nat → Nat → Nat
  | 0, _, _, c => c
  | fuel + 1, drive_letters, mask, c =>
    if drive_letters &&& mask ≠ 0 then
      driveLetterScan fuel drive_letters ((mask <<< 1) % 2 ^ 32) (c + 1)
    else c

def GetNextAvailableDrivePath (drive_letters : Nat) : Except LaunchError String :=
  let c := driveLetterScan 32 (drive_letters % 2 ^ 32) 4 67
  if c > 90 then .error .no_drive_letter_available
  else .ok (String.mk [Char.ofNat c, ':'])

/-! ## Platform path adjustment (launcher.cc lines 59-71)

On Windows the mount path gets a trailing preferred separator appended; on
other platforms it is returned unchanged. The generic (non-Windows) variant
is used by the launcher model; the claims do not depend on the choice. -/

def AdjustMountPath (mount_path : String) : String := mount_path

def AdjustMountPathWin (mount_path : String) : String := mount_path ++ "\\"

/-! ## The environment oracle

The child process and the OS scheduler are external; an `Env` value fixes
the observable outcome of each nondeterministic event of one launcher run. -/

structure Env where
  /-- `bp::execute` sets `error_code`: the OS refused to start the child. -/
  spawnError : Bool
  /-- The child sets `mounted` within the 10-second bound of
  `WaitForDriveToMount`. -/
  childMountsInTime : Bool
  /-- After `unmount` is set and notified, the child clears `mounted` within
  the 10-second bound of the wait in `StopDriveProcess`. -/
  childUnmountsInTime : Bool
  /-- The child process eventually exits once unmount has been requested
  (`bp::wait_for_exit` returns rather than blocking forever). -/
  childExits : Bool
  /-- The exit code `bp::wait_for_exit` reports when the child exits. -/
  exitCode : Nat
deriving DecidableEq, Repr

/-! ## The `Launcher` object

Members from launcher.h (modelled from the spec and the member-initializer
list at launcher.cc lines 124-126): the random bootstrap name, the adjusted
mount path, the `MountStatus*` pointer into the mapped region (modelled by
the name of the region it maps, `none` = `nullptr`), and the
`unique_ptr<bp::child>` process handle (`none` = `nullptr`). -/

structure Launcher where
  initial_shared_memory_name_ : String
  kMountPath_ : String
  mount_status_ : Option String
  drive_process_ : Option Unit
deriving DecidableEq, Repr

/-- Result of `Launcher::StopDriveProcess` (launcher.cc lines 219-240): a
normal return, blocking forever inside `bp::wait_for_exit`, or undefined
behavior from dereferencing a null `mount_status_` pointer. -/
inductive StopResult where
  | ok (l : Launcher) (w : World)
  | hangs (w : World)
  | nullDeref
deriving DecidableEq, Repr

/-- `Launcher::StopDriveProcess`, launcher.cc lines 219-240. -/
def stopDriveProcess (env : Env) (l : Launcher) (w : World) : StopResult :=
  -- lines 220-221: if the handle is null, return at once, touching nothing
  if l.drive_process_ = none then .ok l w
  else
    match l.mount_status_ with
    | none => .nullDeref  -- line 222 would dereference mount_status_
    | some rn =>
      match w.getRegion rn with
      | none => .nullDeref  -- unreachable in the modelled flows
      | some ms =>
        -- lines 222-224: lock the mutex, set unmount, notify
        let ms1 : MountStatus := { ms with unmount := true }
        let w1 := w.setRegion rn ms1
        -- lines 225-228: timed_wait (10 s) for the mounted flag to be false
        if ms1.mounted = false ∨ (w.childRunning ∧ env.childUnmountsInTime) then
          let ms2 : MountStatus := { ms1 with mounted := false }
          let w2 := w1.setRegion rn ms2
          -- lines 234-239: wait_for_exit — no timeout; blocks until exit
          if w2.childRunning = false ∨ env.childExits then
            .ok { l with drive_process_ := none } { w2 with childRunning := false }
          else .hangs w2
        else
          -- lines 229-232: timeout — terminate the child, clear the handle
          .ok { l with drive_process_ := none } { w1 with childRunning := false }

/-- Result of `Launcher::~Launcher` (launcher.cc lines 207-217). -/
inductive DtorResult where
  | completed (w : World)
  | hangs (w : World)
  | nullDeref
deriving DecidableEq, Repr

/-- `Launcher::~Launcher`, launcher.cc lines 207-217: stop the drive process
(exceptions caught and logged — the model's stop never throws), then remove
the bootstrap segment and the mount-status region by name. -/
def launcherDtor (env : Env) (l : Launcher) (w : World) : DtorResult :=
  match stopDriveProcess env l w with
  | .ok _ w1 =>
    let w2 := ipcRemoveSharedMemory l.initial_shared_memory_name_ w1
    let rn := GetMountStatusSharedMemoryName l.initial_shared_memory_name_
    .completed { w2 with regions := w2.regions.filter (fun p => p.1 != rn) }
  | .hangs w1 => .hangs w1
  | .nullDeref => .nullDeref

/-- Result of the `Launcher` constructor (launcher.cc lines 123-140): a
constructed instance, a propagated exception (thrown after the
cleanup-on-throw scope guard ran), a cleanup that blocked forever, or
undefined behavior inside the cleanup. -/
inductive CtorResult where
  | ok (l : Launcher) (w : World)
  | error (e : LaunchError) (w : World)
  | hangs (w : World)
  | nullDeref
deriving DecidableEq, Repr

/-- The throw path of the constructor: the `cleanup_on_throw` scope guard
(lines 127-134) runs `StopDriveProcess` (its own exceptions logged, not
propagated), then the original exception `e` propagates. -/
def ctorUnwind (env : Env) (e : LaunchError) (l : Launcher) (w : World) : CtorResult :=
  match stopDriveProcess env l w with
  | .ok _ w1 => .error e w1
  | .hangs w1 => .hangs w1
  | .nullDeref => .nullDeref

/-- The `Launcher` constructor, launcher.cc lines 123-140. `name` stands for
the `RandomAlphaNumericString(32)` value of line 124. -/
def launcherCtor (env : Env) (options : Options) (name : String) (w : World) : CtorResult :=
  -- lines 124-126: member-initializer list
  let l0 : Launcher := { initial_shared_memory_name_ := name,
                         kMountPath_ := AdjustMountPath options.mount_path,
                         mount_status_ := none, drive_process_ := none }
  -- line 135: CreateInitialSharedMemory (lines 142-151)
  match CreateInitialSharedMemory name options w with
  | .error e => ctorUnwind env e l0 w
  | .ok w1 =>
    -- line 136: CreateMountStatusSharedMemory (lines 153-159):
    -- bi::shared_memory_object(create_only, ...) throws on name collision,
    -- then the MountStatus is constructed in place in the region
    let rn := GetMountStatusSharedMemoryName name
    if (w1.regions.lookup rn).isSome then ctorUnwind env .resource_unavailable l0 w1
    else
      let w2 := w1.setRegion rn MountStatus.init
      let l1 : Launcher := { l0 with mount_status_ := some rn }
      -- line 137: StartDriveProcess (lines 161-180)
      match GetDriveExecutablePath options.drive_type with
      | .error e => ctorUnwind env e l1 w2
      | .ok _ =>
        -- line 173: drive_process_.reset(...) runs before the error check,
        -- so the handle is non-null even when spawning failed
        let l2 : Launcher := { l1 with drive_process_ := some () }
        let w3 : World := { w2 with childRunning := !env.spawnError }
        if env.spawnError then ctorUnwind env .uninitialised l2 w3
        else
          -- line 138: WaitForDriveToMount (lines 198-205)
          if env.childMountsInTime then
            -- the child signalled: mounted is true in the region
            let w4 := w3.setRegion rn { (w3.getRegion rn).getD MountStatus.init with
                                        mounted := true }
            -- line 139: cleanup_on_throw.Release()
            .ok l2 w4
          else ctorUnwind env .failed_to_mount l2 w3

/-! ## Supporting lemmas -/

lemma beBytes_length (n v : Nat) : (beBytes n v).length = n := by
  simp [beBytes]

lemma beBytes_all_lt (n v : Nat) : ∀ b ∈ beBytes n v, b < 256 := by
  intro b hb
  simp only [beBytes, List.mem_map, List.mem_range] at hb
  obtain ⟨i, _, rfl⟩ := hb
  exact Nat.mod_lt _ (by omega)

lemma sha512_length (m : List Nat) : (sha512 m).length = 64 := by
  simp [sha512, beBytes_length]

lemma sha512_all_lt (m : List Nat) : ∀ b ∈ sha512 m, b < 256 := by
  intro b hb
  simp only [sha512, List.mem_flatten, List.mem_cons, List.not_mem_nil, or_false] at hb
  obtain ⟨l, hl, hbl⟩ := hb
  rcases hl with rfl | rfl | rfl | rfl | rfl | rfl | rfl | rfl <;>
    exact beBytes_all_lt _ _ b hbl

lemma hexEncode_length (bs : List Nat) : (hexEncode bs).length = 2 * bs.length := by
  unfold hexEncode
  induction bs with
  | nil => rfl
  | cons b t ih =>
    simp only [List.flatMap_cons, List.length_append, ih, List.length_cons,
               List.length_nil]
    omega

lemma hexDigit_mem (n : Nat) : hexDigit n ∈ hexAlphabet := by
  unfold hexDigit
  rcases Nat.lt_or_ge n 16 with h | h
  · interval_cases n <;> decide
  · rw [List.getD_eq_default]
    · decide
    · have hlen : hexAlphabet.length = 16 := rfl
      omega

lemma hexEncode_mem (bs : List Nat) : ∀ c ∈ hexEncode bs, c ∈ hexAlphabet := by
  intro c hc
  simp only [hexEncode, List.mem_flatMap, List.mem_cons, List.not_mem_nil, or_false] at hc
  obtain ⟨b, _, hcb⟩ := hc
  rcases hcb with rfl | rfl <;> exact hexDigit_mem _

lemma lookup_filter_ne {α : Type} (n : String) (xs : List (String × α)) :
    (xs.filter fun p => p.1 != n).lookup n = none := by
  induction xs with
  | nil => rfl
  | cons x t ih =>
    rcases x with ⟨k, v⟩
    by_cases hk : k = n
    · subst hk
      simpa [List.filter_cons] using ih
    · have hbeq : (n == k) = false := by
        simp [Ne.symm hk]
      simp [List.filter_cons, List.lookup, hk, hbeq, ih]

lemma setRegion_lookup_self (w : World) (n : String) (ms : MountStatus) :
    (w.setRegion n ms).regions.lookup n = some ms := by
  simp [World.setRegion, List.lookup]

/-! ## Concrete values used by witnesses and counterexamples -/

def idA : Identity := ⟨String.mk (List.replicate 64 'a')⟩

def idB : Identity := ⟨String.mk (List.replicate 64 'b')⟩

/-- The concrete `Options` of the spec's round-trip property (section 8). -/
def optsDefault : Options :=
  { mount_path := "/tmp/x", storage_path := "/tmp/y", unique_id := idA,
    root_parent_id := idB, drive_name := "MyDrive", create_store := true,
    drive_type := kLocal, drive_logging_args := "",
    mount_status_shared_object_name := "" }

def wEmpty : World := { segments := [], regions := [], childRunning := false }

/-- A world holding just the bootstrap segment written for `optsDefault`
under the name `"nm"`. -/
def wBoot : World :=
  { segments := [("nm", bootstrapArgs optsDefault)], regions := [], childRunning := false }

/-- The options the child-side reader produces from `wBoot`
(`"ab5aa2..."` is the first 32 hex characters of SHA-512 of `"nm"`). -/
def optsRead : Options :=
  { optsDefault with mount_status_shared_object_name := "ab5aa2824c34472b1be850e8158196ba" }

/-! ## Claims -/

/-- **C5.** For every Bootstrap Segment name `s`, the Mount-Status Region name
is the first 32 hex characters of the SHA-512 hash of `s`, is always exactly
32 characters, each a lowercase hexadecimal digit, and is computed identically
on both sides: the name stored into `Options` by the child-side reader equals
the launcher-side value for the same bootstrap name. -/
theorem mount_status_name_spec :
    (∀ s, GetMountStatusSharedMemoryName s =
        String.mk ((hexEncode (sha512 (strBytes s))).take 32))
    ∧ (∀ s, (GetMountStatusSharedMemoryName s).length = 32)
    ∧ (∀ s, ∀ c ∈ (GetMountStatusSharedMemoryName s).data, c ∈ hexAlphabet)
    ∧ (∀ name options w o w2,
        ReadAndRemoveInitialSharedMemory name options w = .ok (o, w2) →
        o.mount_status_shared_object_name = GetMountStatusSharedMemoryName name) := by
  refine ⟨fun s => rfl, fun s => ?_, fun s c hc => ?_, fun name options w o w2 h => ?_⟩
  · show ((hexEncode (sha512 (strBytes s))).take 32).length = 32
    rw [List.length_take, hexEncode_length, sha512_length]
    decide
  · have hc2 : c ∈ (hexEncode (sha512 (strBytes s))).take 32 := hc
    exact hexEncode_mem _ c (List.take_subset 32 _ hc2)
  · unfold ReadAndRemoveInitialSharedMemory at h
    repeat' split at h
    any_goals exact Except.noConfusion h
    simp only [Except.ok.injEq, Prod.mk.injEq] at h
    rw [← h.1]

/-- Witness for the hypothesis-bearing conjunct of `mount_status_name_spec`:
reading a concrete bootstrap segment stores the launcher-side name. -/
theorem mount_status_name_spec_witness :
    optsRead.mount_status_shared_object_name = GetMountStatusSharedMemoryName "nm" :=
  mount_status_name_spec.2.2.2 "nm" optsDefault wBoot optsRead wEmpty (by rfl)

/-- **C4.** Writing the six `Options` fields into the Bootstrap Segment with
`CreateInitialSharedMemory` and reading them with
`ReadAndRemoveInitialSharedMemory` yields the identical six values (the
create-store flag serialized as `"1"`/`"0"` and parsed back as
integer-not-equal-to-zero), and the Bootstrap Segment no longer exists after
the read. -/
theorem bootstrap_roundtrip (options base : Options) (w : World) (name : String)
    (h1 : options.unique_id.idstr.length = 64)
    (h2 : options.root_parent_id.idstr.length = 64)
    (h3 : w.segments.lookup name = none) :
    CreateInitialSharedMemory name options w =
      .ok { w with segments := (name, bootstrapArgs options) :: w.segments }
    ∧ ReadAndRemoveInitialSharedMemory name base
        { w with segments := (name, bootstrapArgs options) :: w.segments } =
      .ok ({ base with
             mount_path := options.mount_path,
             storage_path := options.storage_path,
             unique_id := options.unique_id,
             root_parent_id := options.root_parent_id,
             drive_name := options.drive_name,
             create_store := options.create_store,
             mount_status_shared_object_name := GetMountStatusSharedMemoryName name },
           { w with segments := ((name, bootstrapArgs options) :: w.segments).filter (fun p => p.1 != name) })
    ∧ (((name, bootstrapArgs options) :: w.segments).filter
        (fun p => p.1 != name)).lookup name = none := by
  have hid1 : (⟨options.unique_id.idstr⟩ : Identity) = options.unique_id := rfl
  have hid2 : (⟨options.root_parent_id.idstr⟩ : Identity) = options.root_parent_id := rfl
  have s1 : stoi "1" = .ok 1 := rfl
  have s0 : stoi "0" = .ok 0 := rfl
  refine ⟨?_, ?_, lookup_filter_ne name _⟩
  · simp [CreateInitialSharedMemory, ipcCreateSharedMemory, h3]
  · cases hcs : options.create_store
    all_goals
      simp [ReadAndRemoveInitialSharedMemory, ipcReadSharedMemory, ipcRemoveSharedMemory,
            bootstrapArgs, hcs, kMaxArgIndex, mkIdentity, h1, h2, s0, s1, hid1, hid2,
            List.lookup_cons]

/-- Witness for `bootstrap_roundtrip`: the spec's concrete round trip
(mount `/tmp/x`, storage `/tmp/y`, two 64-byte ids, name `MyDrive`,
create-store true) through segment name `"nm"` in an empty world. -/
theorem bootstrap_roundtrip_witness :
    CreateInitialSharedMemory "nm" optsDefault wEmpty =
      .ok { wEmpty with segments := [("nm", bootstrapArgs optsDefault)] }
    ∧ ReadAndRemoveInitialSharedMemory "nm" optsDefault
        { wEmpty with segments := [("nm", bootstrapArgs optsDefault)] } =
      .ok ({ optsDefault with
             mount_path := optsDefault.mount_path,
             storage_path := optsDefault.storage_path,
             unique_id := optsDefault.unique_id,
             root_parent_id := optsDefault.root_parent_id,
             drive_name := optsDefault.drive_name,
             create_store := optsDefault.create_store,
             mount_status_shared_object_name := GetMountStatusSharedMemoryName "nm" },
           { wEmpty with segments := [("nm", bootstrapArgs optsDefault)].filter (fun p => p.1 != "nm") })
    ∧ ([("nm", bootstrapArgs optsDefault)].filter
        (fun p => p.1 != "nm")).lookup "nm" = none :=
  bootstrap_roundtrip optsDefault optsDefault wEmpty "nm" (by decide) (by decide) rfl

/-- **C6.** Executable resolution is the pure mapping local→`local_drive`,
local-with-console→`local_drive_console`, network→`network_drive`,
network-with-console→`network_drive_console`, and every other drive-variant
value fails with `InvalidParameter`. -/
theorem drive_executable_resolution :
    GetDriveExecutablePath kLocal = .ok "local_drive"
    ∧ GetDriveExecutablePath kLocalConsole = .ok "local_drive_console"
    ∧ GetDriveExecutablePath kNetwork = .ok "network_drive"
    ∧ GetDriveExecutablePath kNetworkConsole = .ok "network_drive_console"
    ∧ ∀ d : Int, d ≠ kLocal → d ≠ kLocalConsole → d ≠ kNetwork → d ≠ kNetworkConsole →
        GetDriveExecutablePath d = .error .invalid_parameter := by
  refine ⟨rfl, rfl, rfl, rfl, fun d h1 h2 h3 h4 => ?_⟩
  simp [GetDriveExecutablePath, h1, h2, h3, h4]

/-- Witness for `drive_executable_resolution`: the value 7 is none of the four
variants and resolution fails with `InvalidParameter` there. -/
theorem drive_executable_resolution_witness :
    GetDriveExecutablePath 7 = .error .invalid_parameter :=
  drive_executable_resolution.2.2.2.2 7 (by decide) (by decide) (by decide) (by decide)

/-! Scan lemmas for the drive-letter loop (launcher.cc lines 50-53). -/

lemma scan_monotone (fuel : Nat) : ∀ dl mask c, c ≤ driveLetterScan fuel dl mask c := by
  induction fuel with
  | zero => intro dl mask c; exact Nat.le_refl c
  | succ f ih =>
    intro dl mask c
    unfold driveLetterScan
    split
    · exact Nat.le_trans (Nat.le_succ c) (ih dl ((mask <<< 1) % 2 ^ 32) (c + 1))
    · exact Nat.le_refl c

lemma scan_step (fuel dl m c : Nat) (hm : m ≤ 30) (hbit : dl.testBit m = true) :
    driveLetterScan (fuel + 1) dl (2 ^ m) c = driveLetterScan fuel dl (2 ^ (m + 1)) (c + 1) := by
  have hmask : ((2 ^ m : Nat) <<< 1) % 2 ^ 32 = 2 ^ (m + 1) := by
    rw [Nat.shiftLeft_eq, ← pow_succ]
    apply Nat.mod_eq_of_lt
    have h1 : (2 : Nat) ^ (m + 1) ≤ 2 ^ 31 := Nat.pow_le_pow_right (by omega) (by omega)
    have h2 : (2 : Nat) ^ 31 < 2 ^ 32 := by norm_num
    omega
  have hcond : dl &&& 2 ^ m ≠ 0 := by
    rw [Nat.and_two_pow, hbit]
    simp
  have hstep : driveLetterScan (fuel + 1) dl (2 ^ m) c =
      if dl &&& 2 ^ m ≠ 0 then driveLetterScan fuel dl ((2 ^ m <<< 1) % 2 ^ 32) (c + 1)
      else c := rfl
  rw [hstep, if_pos hcond, hmask]

lemma scan_stop (fuel dl m c : Nat) (hbit : dl.testBit m = false) :
    driveLetterScan (fuel + 1) dl (2 ^ m) c = c := by
  have hcond : ¬dl &&& 2 ^ m ≠ 0 := by
    rw [Nat.and_two_pow, hbit]
    simp
  have hstep : driveLetterScan (fuel + 1) dl (2 ^ m) c =
      if dl &&& 2 ^ m ≠ 0 then driveLetterScan fuel dl ((2 ^ m <<< 1) % 2 ^ 32) (c + 1)
      else c := rfl
  rw [hstep, if_neg hcond]

lemma scan_steps (dl : Nat) : ∀ n fuel m c, m + n ≤ 31 →
    (∀ j, j < n → dl.testBit (m + j) = true) →
    driveLetterScan (n + fuel) dl (2 ^ m) c = driveLetterScan fuel dl (2 ^ (m + n)) (c + n) := by
  intro n
  induction n with
  | zero => intro fuel m c _ _; simp
  | succ k ih =>
    intro fuel m c hm hbits
    have h0 : dl.testBit m = true := by simpa using hbits 0 (by omega)
    have e0 : k + 1 + fuel = (k + fuel) + 1 := by omega
    rw [e0, scan_step (k + fuel) dl m c (by omega) h0]
    have hrec := ih fuel (m + 1) (c + 1) (by omega) (fun j hj => by
      have hb := hbits (j + 1) (by omega)
      have e : m + (j + 1) = m + 1 + j := by omega
      rwa [e] at hb)
    have e1 : m + 1 + k = m + (k + 1) := by omega
    have e2 : c + 1 + k = c + (k + 1) := by omega
    rwa [e1, e2] at hrec

/-- **C9 counterexample.** With every letter C-Z assigned but A and B free,
the helper fails with `NoDriveLetterAvailable` although unused letters in A-Z
remain: the claim "fails exactly when no letter in A-Z remains unused" is
false on the code. -/
theorem drive_letter_claim_counterexample :
    GetNextAvailableDrivePath 0x03FFFFFC = .error .no_drive_letter_available
    ∧ Nat.testBit 0x03FFFFFC 0 = false ∧ Nat.testBit 0x03FFFFFC 1 = false :=
  ⟨rfl, rfl, rfl⟩

/-- **C9 (amended).** The helper scans assigned-letter bits starting at C
(bit 2), never considering A or B: for every 32-bit mask it fails with
`NoDriveLetterAvailable` exactly when all letters C-Z are assigned, and when
some letter in C-Z is free it returns the first free one (as `"<letter>:"`). -/
theorem drive_letter_scan_characterisation (dl : Nat) (hdl : dl < 2 ^ 32) :
    (GetNextAvailableDrivePath dl = .error .no_drive_letter_available ↔
      ∀ k, 2 ≤ k → k ≤ 25 → dl.testBit k = true)
    ∧ (∀ k, 2 ≤ k → k ≤ 25 → dl.testBit k = false →
        (∀ j, 2 ≤ j → j < k → dl.testBit j = true) →
        GetNextAvailableDrivePath dl = .ok (String.mk [Char.ofNat (65 + k), ':'])) := by
  have hmod : dl % 2 ^ 32 = dl := Nat.mod_eq_of_lt hdl
  have h4 : (4 : Nat) = 2 ^ 2 := rfl
  have hsucc : ∀ k, 2 ≤ k → k ≤ 25 → dl.testBit k = false →
      (∀ j, 2 ≤ j → j < k → dl.testBit j = true) →
      GetNextAvailableDrivePath dl = .ok (String.mk [Char.ofNat (65 + k), ':']) := by
    intro k hk2 hk25 hkbit hmin
    unfold GetNextAvailableDrivePath
    rw [hmod, h4]
    have e32 : (32 : Nat) = (k - 2) + (34 - k) := by omega
    rw [e32, scan_steps dl (k - 2) (34 - k) 2 67 (by omega)
          (fun j hj => hmin (2 + j) (by omega) (by omega))]
    have ek : 2 + (k - 2) = k := by omega
    have ec : 67 + (k - 2) = 65 + k := by omega
    rw [ek, ec]
    have e1 : (34 - k) = (33 - k) + 1 := by omega
    rw [e1, scan_stop (33 - k) dl k (65 + k) hkbit]
    rw [if_neg (by omega)]
  refine ⟨⟨?_, ?_⟩, hsucc⟩
  · intro herr k hk2 hk25
    by_contra hbit
    have hkf : dl.testBit k = false := by simpa using hbit
    have hex : ∃ j, 2 ≤ j ∧ j ≤ 25 ∧ dl.testBit j = false := ⟨k, hk2, hk25, hkf⟩
    have hspec := Nat.find_spec hex
    have hres := hsucc (Nat.find hex) hspec.1 hspec.2.1 hspec.2.2 (fun j hj2 hjk => by
      have hnot := Nat.find_min hex hjk
      push_neg at hnot
      have hj25 : j ≤ 25 := by
        have := hspec.2.1
        omega
      by_contra hb
      exact hnot hj2 hj25 (by simpa using hb))
    rw [hres] at herr
    exact Except.noConfusion herr
  · intro hall
    unfold GetNextAvailableDrivePath
    rw [hmod, h4]
    have e32 : (32 : Nat) = 24 + 8 := by omega
    rw [e32, scan_steps dl 24 8 2 67 (by omega)
          (fun j hj => hall (2 + j) (by omega) (by omega))]
    have hmono := scan_monotone 8 dl (2 ^ (2 + 24)) (67 + 24)
    rw [if_pos (by omega)]

/-- Witness for `drive_letter_scan_characterisation`: with only C assigned
(mask 4), the next available drive is D. -/
theorem drive_letter_scan_characterisation_witness :
    GetNextAvailableDrivePath 4 = .ok (String.mk [Char.ofNat (65 + 3), ':']) :=
  (drive_letter_scan_characterisation 4 (by norm_num)).2 3 (by norm_num) (by norm_num)
    (by decide) (fun j h2 h3 => by interval_cases j; decide)

/-! ## Lemmas about `StopDriveProcess` and the constructor's unwinding -/

/-- Lines 220-221: with a null process handle, stop returns at once and
touches neither the launcher nor the world — in particular it never reaches
line 222, so a null `mount_status_` is never dereferenced. -/
lemma stop_handle_none (env : Env) (l : Launcher) (w : World)
    (h : l.drive_process_ = none) : stopDriveProcess env l w = .ok l w := by
  unfold stopDriveProcess
  rw [if_pos h]

lemma ctorUnwind_handle_none (env : Env) (e : LaunchError) (l : Launcher) (w : World)
    (h : l.drive_process_ = none) : ctorUnwind env e l w = .error e w := by
  unfold ctorUnwind
  rw [stop_handle_none env l w h]

lemma getRegion_setRegion_self (w : World) (n : String) (ms : MountStatus) :
    (w.setRegion n ms).getRegion n = some ms := setRegion_lookup_self w n ms

/-- Stop on a launcher whose region still holds the freshly constructed
`MountStatus` (both flags false): the unmount wait returns at once, and
`wait_for_exit` completes exactly when the child is not running or exits. -/
lemma stop_region_init_done (env : Env) (l : Launcher) (w : World) (rn : String)
    (hp : l.drive_process_ = some ()) (hm : l.mount_status_ = some rn)
    (hr : w.getRegion rn = some MountStatus.init)
    (hdone : w.childRunning = false ∨ env.childExits = true) :
    stopDriveProcess env l w =
      .ok { l with drive_process_ := none }
         { (w.setRegion rn { mounted := false, unmount := true }).setRegion rn
             { mounted := false, unmount := true } with childRunning := false } := by
  simp only [stopDriveProcess, hp, hm, hr, MountStatus.init, World.setRegion, reduceCtorEq,
             if_false, eq_self_iff_true, true_or, if_true]
  rw [if_pos hdone]

/-- Stop in the same situation, but with a running child that never exits:
`wait_for_exit` (which has no timeout) blocks forever. -/
lemma stop_region_init_hangs (env : Env) (l : Launcher) (w : World) (rn : String)
    (hp : l.drive_process_ = some ()) (hm : l.mount_status_ = some rn)
    (hr : w.getRegion rn = some MountStatus.init)
    (hrun : w.childRunning = true) (hnoexit : env.childExits = false) :
    stopDriveProcess env l w =
      .hangs ((w.setRegion rn { mounted := false, unmount := true }).setRegion rn
               { mounted := false, unmount := true }) := by
  simp only [stopDriveProcess, hp, hm, hr, MountStatus.init, World.setRegion, reduceCtorEq,
             if_false, eq_self_iff_true, true_or, if_true, hrun, hnoexit]
  simp

/-! ## More concrete values for the lifecycle claims -/

/-- The first 32 hex characters of SHA-512 of `"nm"`. -/
def mountRegionName : String := "ab5aa2824c34472b1be850e8158196ba"

/-- Environment of a run where everything succeeds. -/
def envAll : Env := { spawnError := false, childMountsInTime := true,
                      childUnmountsInTime := true, childExits := true, exitCode := 0 }

/-- Environment of a run where the child mounts and later confirms unmount
in time, but never exits. -/
def envHang : Env := { spawnError := false, childMountsInTime := true,
                       childUnmountsInTime := true, childExits := false, exitCode := 0 }

/-- Environment of a run where the child mounts but never confirms unmount. -/
def envNoUnmount : Env := { spawnError := false, childMountsInTime := true,
                            childUnmountsInTime := false, childExits := true, exitCode := 0 }

/-- Environment of a run where the child starts but never signals mounted. -/
def envTimeout : Env := { spawnError := false, childMountsInTime := false,
                          childUnmountsInTime := false, childExits := true, exitCode := 0 }

/-- The launcher state after a successful construction from `optsDefault`
under bootstrap name `"nm"`. -/
def lMounted : Launcher :=
  { initial_shared_memory_name_ := "nm", kMountPath_ := "/tmp/x",
    mount_status_ := some mountRegionName, drive_process_ := some () }

/-- The world after that successful construction: bootstrap segment present,
region mounted, child running. -/
def wMounted : World :=
  { segments := [("nm", bootstrapArgs optsDefault)],
    regions := [(mountRegionName, { mounted := true, unmount := false })],
    childRunning := true }

/-- A launcher whose handle and mount-status pointer are both null (the state
during construction before `StartDriveProcess`). -/
def lNullBoth : Launcher :=
  { initial_shared_memory_name_ := "nm", kMountPath_ := "/tmp/x",
    mount_status_ := none, drive_process_ := none }

/-- Options selecting a drive variant outside the four declared ones. -/
def optsBadType : Options := { optsDefault with drive_type := 9 }

/-- The world in which a failed construction (mount timeout) leaves the
system: no child, but both shared-memory names still registered. -/
def wLeak : World :=
  { segments := [("nm", bootstrapArgs optsDefault)],
    regions := [(mountRegionName, { mounted := false, unmount := true })],
    childRunning := false }

/-- **C7.** Once a stop has completed, the process handle is null, and a
second `StopDriveProcess` call — under any environment — returns immediately
without raising and with no additional effect: launcher, mount-status flags
and child-process state are all left unchanged. -/
theorem stop_idempotent (env env2 : Env) (l : Launcher) (w : World) (l2 : Launcher)
    (w2 : World) (h : stopDriveProcess env l w = .ok l2 w2) :
    l2.drive_process_ = none ∧ stopDriveProcess env2 l2 w2 = .ok l2 w2 := by
  have hnone : l2.drive_process_ = none := by
    unfold stopDriveProcess at h
    split at h
    · rename_i hn
      cases h
      exact hn
    · split at h
      · exact StopResult.noConfusion h
      · split at h
        · exact StopResult.noConfusion h
        · simp only [] at h
          split at h
          · split at h
            · cases h
              rfl
            · exact StopResult.noConfusion h
          · cases h
            rfl
  exact ⟨hnone, stop_handle_none env2 l2 w2 hnone⟩

/-- Witness for `stop_idempotent`: stopping an already-stopped launcher. -/
theorem stop_idempotent_witness :
    lNullBoth.drive_process_ = none ∧ stopDriveProcess envAll lNullBoth wEmpty = .ok lNullBoth wEmpty :=
  stop_idempotent envAll envAll lNullBoth wEmpty lNullBoth wEmpty rfl

/-- **C10.** At every construction failure point before the process handle is
assigned, the cleanup is safe: `StopDriveProcess` with a null handle returns
immediately, touching nothing — in particular never dereferencing the
possibly-null mount-status pointer — and each pre-spawn failure (bootstrap
creation, mount-status creation, executable resolution) propagates as the
plain error with no further effect. -/
theorem prespawn_unwind_safe :
    (∀ env l w, l.drive_process_ = none → stopDriveProcess env l w = .ok l w)
    ∧ (∀ env options name w, (w.segments.lookup name).isSome = true →
        launcherCtor env options name w = .error .resource_unavailable w)
    ∧ (∀ env options name w, w.segments.lookup name = none →
        (w.regions.lookup (GetMountStatusSharedMemoryName name)).isSome = true →
        launcherCtor env options name w = .error .resource_unavailable
          { w with segments := (name, bootstrapArgs options) :: w.segments })
    ∧ (∀ env options name w, w.segments.lookup name = none →
        w.regions.lookup (GetMountStatusSharedMemoryName name) = none →
        GetDriveExecutablePath options.drive_type = .error .invalid_parameter →
        launcherCtor env options name w = .error .invalid_parameter
          (World.setRegion { w with segments := (name, bootstrapArgs options) :: w.segments }
            (GetMountStatusSharedMemoryName name) MountStatus.init)) := by
  refine ⟨fun env l w h => stop_handle_none env l w h, ?_, ?_, ?_⟩
  · intro env options name w h
    simp only [launcherCtor, CreateInitialSharedMemory, ipcCreateSharedMemory, h, if_true]
    rw [ctorUnwind_handle_none env _ _ w rfl]
  · intro env options name w hseg hreg
    simp only [launcherCtor, CreateInitialSharedMemory, ipcCreateSharedMemory, hseg,
               Option.isSome_none, Bool.false_eq_true, if_false, hreg, if_true]
    rw [ctorUnwind_handle_none env _ _ _ rfl]
  · intro env options name w hseg hreg hexe
    simp only [launcherCtor, CreateInitialSharedMemory, ipcCreateSharedMemory, hseg,
               Option.isSome_none, Bool.false_eq_true, if_false, hreg, hexe]
    rw [ctorUnwind_handle_none env _ _ _ rfl]

/-- Witness for `prespawn_unwind_safe`: a null-handle stop with a null
mount-status pointer, and a concrete pre-spawn failure (unknown drive
variant 9) that unwinds cleanly. -/
theorem prespawn_unwind_safe_witness :
    stopDriveProcess envAll lNullBoth wEmpty = .ok lNullBoth wEmpty
    ∧ launcherCtor envAll optsBadType "nm" wEmpty = .error .invalid_parameter
        (World.setRegion { wEmpty with segments := [("nm", bootstrapArgs optsBadType)] }
          (GetMountStatusSharedMemoryName "nm") MountStatus.init) :=
  ⟨prespawn_unwind_safe.1 envAll lNullBoth wEmpty rfl,
   prespawn_unwind_safe.2.2.2 envAll optsBadType "nm" wEmpty rfl rfl rfl⟩

/-- **C3.** Teardown with a live mounted child: when the mounted flag does not
clear within the 10-second bound after the unmount request, stop forcibly
terminates the child, clears the handle and returns without raising, and the
destructor still completes, removing both the Bootstrap Segment name and the
Mount-Status Region name. -/
theorem unmount_timeout_teardown (env : Env) (l : Launcher) (w : World) (rn : String)
    (ms : MountStatus)
    (hp : l.drive_process_ = some ()) (hm : l.mount_status_ = some rn)
    (hr : w.getRegion rn = some ms) (hmt : ms.mounted = true)
    (hto : env.childUnmountsInTime = false) :
    stopDriveProcess env l w =
      .ok { l with drive_process_ := none }
         { w.setRegion rn { ms with unmount := true } with childRunning := false }
    ∧ launcherDtor env l w =
        .completed
          { segments := (w.setRegion rn { ms with unmount := true }).segments.filter
              (fun p => p.1 != l.initial_shared_memory_name_),
            regions := (w.setRegion rn { ms with unmount := true }).regions.filter
              (fun p => p.1 != GetMountStatusSharedMemoryName l.initial_shared_memory_name_),
            childRunning := false }
    ∧ ((w.setRegion rn { ms with unmount := true }).segments.filter
        (fun p => p.1 != l.initial_shared_memory_name_)).lookup
        l.initial_shared_memory_name_ = none
    ∧ ((w.setRegion rn { ms with unmount := true }).regions.filter
        (fun p => p.1 != GetMountStatusSharedMemoryName l.initial_shared_memory_name_)).lookup
        (GetMountStatusSharedMemoryName l.initial_shared_memory_name_) = none := by
  have hstop : stopDriveProcess env l w =
      .ok { l with drive_process_ := none }
         { w.setRegion rn { ms with unmount := true } with childRunning := false } := by
    simp only [stopDriveProcess, hp, hm, hr, hmt, hto, reduceCtorEq, if_false,
               Bool.true_eq_false, false_or, and_false, if_neg, World.setRegion]
  refine ⟨hstop, ?_, lookup_filter_ne _ _, lookup_filter_ne _ _⟩
  unfold launcherDtor
  rw [hstop]
  rfl

/-- Witness for `unmount_timeout_teardown`: the fully mounted state from
`optsDefault`, with a child that never confirms unmount. -/
theorem unmount_timeout_teardown_witness :
    stopDriveProcess envNoUnmount lMounted wMounted =
      .ok { lMounted with drive_process_ := none }
         { wMounted.setRegion mountRegionName { mounted := true, unmount := true } with
           childRunning := false }
    ∧ launcherDtor envNoUnmount lMounted wMounted =
        .completed
          { segments := (wMounted.setRegion mountRegionName
              { mounted := true, unmount := true }).segments.filter (fun p => p.1 != "nm"),
            regions := (wMounted.setRegion mountRegionName
              { mounted := true, unmount := true }).regions.filter
              (fun p => p.1 != GetMountStatusSharedMemoryName "nm"),
            childRunning := false }
    ∧ ((wMounted.setRegion mountRegionName
        { mounted := true, unmount := true }).segments.filter
        (fun p => p.1 != "nm")).lookup "nm" = none
    ∧ ((wMounted.setRegion mountRegionName
        { mounted := true, unmount := true }).regions.filter
        (fun p => p.1 != GetMountStatusSharedMemoryName "nm")).lookup
        (GetMountStatusSharedMemoryName "nm") = none :=
  unmount_timeout_teardown envNoUnmount lMounted wMounted mountRegionName
    { mounted := true, unmount := false } rfl rfl rfl rfl rfl

/-- **C8 counterexample.** A reachable teardown in which the child confirms
unmount within the bound but never exits: `StopDriveProcess` blocks forever
inside `bp::wait_for_exit`, so the exit wait is not performed with a timeout
and teardown is not total. -/
theorem exit_wait_claim_counterexample :
    launcherCtor envHang optsDefault "nm" wEmpty = .ok lMounted wMounted
    ∧ stopDriveProcess envHang lMounted wMounted =
        .hangs { segments := [("nm", bootstrapArgs optsDefault)],
                 regions := [(mountRegionName, { mounted := false, unmount := true })],
                 childRunning := true } :=
  ⟨by decide, by decide⟩

/-- **C8 (amended).** `bp::wait_for_exit` has no timeout: in teardown, when
the unmounted signal arrives within the 10-second bound, stop completes
(yielding the exit code, a log-level concern) exactly when the child process
exits; for a live child that signals unmounted but then never exits,
`StopDriveProcess` blocks forever. -/
theorem exit_wait_unbounded (env : Env) (l : Launcher) (w : World) (rn : String)
    (ms : MountStatus)
    (hp : l.drive_process_ = some ()) (hm : l.mount_status_ = some rn)
    (hr : w.getRegion rn = some ms)
    (hchild : w.childRunning = true) (hun : env.childUnmountsInTime = true) :
    (env.childExits = false → stopDriveProcess env l w =
        .hangs ((w.setRegion rn { ms with unmount := true }).setRegion rn
                 { mounted := false, unmount := true }))
    ∧ (env.childExits = true → stopDriveProcess env l w =
        .ok { l with drive_process_ := none }
           { (w.setRegion rn { ms with unmount := true }).setRegion rn
               { mounted := false, unmount := true } with childRunning := false }) := by
  constructor
  · intro hexit
    simp only [stopDriveProcess, hp, hm, hr, hchild, hun, hexit, reduceCtorEq, if_false,
               World.setRegion]
    simp
  · intro hexit
    simp only [stopDriveProcess, hp, hm, hr, hchild, hun, hexit, reduceCtorEq, if_false,
               World.setRegion]
    simp

/-- Witness for `exit_wait_unbounded`: the mounted state from `optsDefault`
with a child that confirms unmount but never exits. -/
theorem exit_wait_unbounded_witness :
    stopDriveProcess envHang lMounted wMounted =
      .hangs ((wMounted.setRegion mountRegionName { mounted := true, unmount := true }).setRegion
               mountRegionName { mounted := false, unmount := true }) :=
  (exit_wait_unbounded envHang lMounted wMounted mountRegionName
    { mounted := true, unmount := false } rfl rfl rfl rfl rfl).1 rfl

/-! ## The constructor's paths after a successful spawn step -/

/-- The launcher fields once `StartDriveProcess` has assigned the handle
(line 173): the mount-status pointer maps the derived region, the handle is
non-null. -/
def ctorLauncher (options : Options) (name : String) : Launcher :=
  { initial_shared_memory_name_ := name, kMountPath_ := AdjustMountPath options.mount_path,
    mount_status_ := some (GetMountStatusSharedMemoryName name), drive_process_ := some () }

/-- The world right after the spawn step: bootstrap segment written,
mount-status region initialised, child running unless the spawn failed. -/
def wPostSpawn (env : Env) (options : Options) (name : String) (w : World) : World :=
  { World.setRegion { w with segments := (name, bootstrapArgs options) :: w.segments }
      (GetMountStatusSharedMemoryName name) MountStatus.init with
    childRunning := !env.spawnError }

/-- The world after the constructor's scope guard ran `StopDriveProcess`
following a post-spawn failure: unmount requested, child gone — but both
shared-memory names still registered. -/
def wUnwound (env : Env) (options : Options) (name : String) (w : World) : World :=
  { World.setRegion (World.setRegion (wPostSpawn env options name w)
      (GetMountStatusSharedMemoryName name) { mounted := false, unmount := true })
      (GetMountStatusSharedMemoryName name) { mounted := false, unmount := true } with
    childRunning := false }

/-- The world in which the scope guard blocks forever inside
`bp::wait_for_exit` (child running, never exiting). -/
def wHungWorld (env : Env) (options : Options) (name : String) (w : World) : World :=
  World.setRegion (World.setRegion (wPostSpawn env options name w)
    (GetMountStatusSharedMemoryName name) { mounted := false, unmount := true })
    (GetMountStatusSharedMemoryName name) { mounted := false, unmount := true }

/-- The world after the child signalled mounted within the bound. -/
def wMountedWorld (env : Env) (options : Options) (name : String) (w : World) : World :=
  World.setRegion (wPostSpawn env options name w) (GetMountStatusSharedMemoryName name)
    { ((wPostSpawn env options name w).getRegion
        (GetMountStatusSharedMemoryName name)).getD MountStatus.init with
      mounted := true }

lemma ctorUnwind_spawned_done (env : Env) (e : LaunchError) (l : Launcher) (w : World)
    (rn : String)
    (hp : l.drive_process_ = some ()) (hm : l.mount_status_ = some rn)
    (hr : w.getRegion rn = some MountStatus.init)
    (hdone : w.childRunning = false ∨ env.childExits = true) :
    ctorUnwind env e l w = .error e
      { (w.setRegion rn { mounted := false, unmount := true }).setRegion rn
          { mounted := false, unmount := true } with childRunning := false } := by
  unfold ctorUnwind
  rw [stop_region_init_done env l w rn hp hm hr hdone]

lemma ctorUnwind_spawned_hangs (env : Env) (e : LaunchError) (l : Launcher) (w : World)
    (rn : String)
    (hp : l.drive_process_ = some ()) (hm : l.mount_status_ = some rn)
    (hr : w.getRegion rn = some MountStatus.init)
    (hrun : w.childRunning = true) (hnoexit : env.childExits = false) :
    ctorUnwind env e l w =
      .hangs ((w.setRegion rn { mounted := false, unmount := true }).setRegion rn
               { mounted := false, unmount := true }) := by
  unfold ctorUnwind
  rw [stop_region_init_hangs env l w rn hp hm hr hrun hnoexit]

lemma lookup_cons_self {α : Type} (n : String) (v : α) (t : List (String × α)) :
    ((n, v) :: t).lookup n = some v := by
  simp [List.lookup]

/-- The error kind of a failed executable resolution is always
`invalid_parameter`. -/
lemma exe_error_invalid (d : Int) (e2 : LaunchError)
    (h : GetDriveExecutablePath d = .error e2) : e2 = .invalid_parameter := by
  unfold GetDriveExecutablePath at h
  repeat' split at h
  all_goals simp_all

/-- Case analysis of the constructor once the three pre-spawn steps succeed
(fresh bootstrap name, fresh region name, known drive variant): spawn
failure, successful mount, mount timeout with an exiting child, and mount
timeout with a hung child. -/
lemma ctor_spawned_cases (env : Env) (options : Options) (name : String) (w : World)
    (p : String)
    (hseg : w.segments.lookup name = none)
    (hreg : w.regions.lookup (GetMountStatusSharedMemoryName name) = none)
    (hexe : GetDriveExecutablePath options.drive_type = .ok p) :
    (env.spawnError = true →
      launcherCtor env options name w = .error .uninitialised (wUnwound env options name w))
    ∧ (env.spawnError = false → env.childMountsInTime = true →
      launcherCtor env options name w =
        .ok (ctorLauncher options name) (wMountedWorld env options name w))
    ∧ (env.spawnError = false → env.childMountsInTime = false → env.childExits = true →
      launcherCtor env options name w = .error .failed_to_mount (wUnwound env options name w))
    ∧ (env.spawnError = false → env.childMountsInTime = false → env.childExits = false →
      launcherCtor env options name w = .hangs (wHungWorld env options name w)) := by
  have hregion : (wPostSpawn env options name w).getRegion (GetMountStatusSharedMemoryName name)
      = some MountStatus.init :=
    getRegion_setRegion_self { w with segments := (name, bootstrapArgs options) :: w.segments }
      (GetMountStatusSharedMemoryName name) MountStatus.init
  refine ⟨?_, ?_, ?_, ?_⟩
  · intro hsp
    have hpath : launcherCtor env options name w =
        ctorUnwind env .uninitialised (ctorLauncher options name)
          (wPostSpawn env options name w) := by
      simp only [launcherCtor, CreateInitialSharedMemory, ipcCreateSharedMemory, hseg,
                 Option.isSome_none, Bool.false_eq_true, if_false, hreg, hexe, hsp, reduceIte,
                 ctorLauncher, wPostSpawn]
      try rfl
    rw [hpath, ctorUnwind_spawned_done env .uninitialised (ctorLauncher options name)
          (wPostSpawn env options name w) (GetMountStatusSharedMemoryName name) rfl rfl hregion
          (Or.inl (by simp [wPostSpawn, hsp]))]
    rfl
  · intro hsp hcm
    simp only [launcherCtor, CreateInitialSharedMemory, ipcCreateSharedMemory, hseg,
               Option.isSome_none, Bool.false_eq_true, if_false, hreg, hexe, hsp, hcm,
               reduceIte, ctorLauncher, wPostSpawn, wMountedWorld]
    try rfl
  · intro hsp hcm hex
    have hpath : launcherCtor env options name w =
        ctorUnwind env .failed_to_mount (ctorLauncher options name)
          (wPostSpawn env options name w) := by
      simp only [launcherCtor, CreateInitialSharedMemory, ipcCreateSharedMemory, hseg,
                 Option.isSome_none, Bool.false_eq_true, if_false, hreg, hexe, hsp, hcm,
                 reduceIte, ctorLauncher, wPostSpawn]
      try rfl
    rw [hpath, ctorUnwind_spawned_done env .failed_to_mount (ctorLauncher options name)
          (wPostSpawn env options name w) (GetMountStatusSharedMemoryName name) rfl rfl hregion
          (Or.inr hex)]
    rfl
  · intro hsp hcm hex
    have hpath : launcherCtor env options name w =
        ctorUnwind env .failed_to_mount (ctorLauncher options name)
          (wPostSpawn env options name w) := by
      simp only [launcherCtor, CreateInitialSharedMemory, ipcCreateSharedMemory, hseg,
                 Option.isSome_none, Bool.false_eq_true, if_false, hreg, hexe, hsp, hcm,
                 reduceIte, ctorLauncher, wPostSpawn]
      try rfl
    rw [hpath, ctorUnwind_spawned_hangs env .failed_to_mount (ctorLauncher options name)
          (wPostSpawn env options name w) (GetMountStatusSharedMemoryName name) rfl rfl hregion
          (by simp [wPostSpawn, hsp]) hex]
    rfl

/-- **C1 counterexample.** A construction that fails (mount timeout) after
which both the Bootstrap Segment name and the derived Mount-Status Region
name are still registered shared-memory objects: failed construction is NOT
atomic with respect to shared-memory names. -/
theorem ctor_atomicity_counterexample :
    launcherCtor envTimeout optsDefault "nm" wEmpty = .error .failed_to_mount wLeak
    ∧ (wLeak.segments.lookup "nm").isSome = true
    ∧ (wLeak.regions.lookup (GetMountStatusSharedMemoryName "nm")).isSome = true :=
  ⟨by decide, rfl, by decide⟩

/-- **C1 (amended).** When Launcher construction fails (under fresh
shared-memory names, as produced by the random bootstrap name), no child
drive process is left running once the cleanup completes — but the
shared-memory names are NOT released: both the Bootstrap Segment name and
the derived Mount-Status Region name survive as registered objects, because
only the destructor of a fully constructed Launcher removes them and the
constructor's scope guard runs `StopDriveProcess` alone. -/
theorem ctor_failure_no_child_but_names_leak (env : Env) (options : Options) (name : String)
    (w : World) (e : LaunchError) (wf : World)
    (hw : w.childRunning = false)
    (hseg : w.segments.lookup name = none)
    (hreg : w.regions.lookup (GetMountStatusSharedMemoryName name) = none)
    (h : launcherCtor env options name w = .error e wf) :
    wf.childRunning = false
    ∧ (wf.segments.lookup name).isSome = true
    ∧ (wf.regions.lookup (GetMountStatusSharedMemoryName name)).isSome = true := by
  rcases hexe : GetDriveExecutablePath options.drive_type with e2 | p
  · obtain rfl := exe_error_invalid options.drive_type e2 hexe
    rw [prespawn_unwind_safe.2.2.2 env options name w hseg hreg hexe] at h
    cases h
    refine ⟨hw, ?_, ?_⟩
    · simp [World.setRegion, lookup_cons_self]
    · rw [setRegion_lookup_self]
      rfl
  · have hc := ctor_spawned_cases env options name w p hseg hreg hexe
    cases hsp : env.spawnError
    · cases hcm : env.childMountsInTime
      · cases hex : env.childExits
        · exact CtorResult.noConfusion ((hc.2.2.2 hsp hcm hex).symm.trans h)
        · rw [hc.2.2.1 hsp hcm hex] at h
          cases h
          exact ⟨rfl, by simp [wUnwound, wPostSpawn, World.setRegion, lookup_cons_self],
                 by simp [wUnwound, wPostSpawn, World.setRegion, lookup_cons_self]⟩
      · exact CtorResult.noConfusion ((hc.2.1 hsp hcm).symm.trans h)
    · rw [hc.1 hsp] at h
      cases h
      exact ⟨rfl, by simp [wUnwound, wPostSpawn, World.setRegion, lookup_cons_self],
             by simp [wUnwound, wPostSpawn, World.setRegion, lookup_cons_self]⟩

/-- Witness for `ctor_failure_no_child_but_names_leak`: the concrete failed
construction of `ctor_atomicity_counterexample`. -/
theorem ctor_failure_no_child_but_names_leak_witness :
    wLeak.childRunning = false
    ∧ (wLeak.segments.lookup "nm").isSome = true
    ∧ (wLeak.regions.lookup (GetMountStatusSharedMemoryName "nm")).isSome = true :=
  ctor_failure_no_child_but_names_leak envTimeout optsDefault "nm" wEmpty .failed_to_mount
    wLeak rfl rfl rfl (by decide)

/-- Environment of a run where the child starts but never signals mounted
and never exits. -/
def envNeverExits : Env := { spawnError := false, childMountsInTime := false,
                             childUnmountsInTime := false, childExits := false, exitCode := 0 }

/-- **C2 counterexample.** A construction in which the child is spawned and
the mounted flag is not observed true within the bound, yet the constructor
does NOT fail with `FailedToMount`: the child never exits, so the cleanup's
`bp::wait_for_exit` (line 234), which has no timeout, blocks forever and the
constructor never returns at all. -/
theorem mount_timeout_claim_counterexample :
    launcherCtor envNeverExits optsDefault "nm" wEmpty =
      .hangs (wHungWorld envNeverExits optsDefault "nm" wEmpty) := by
  decide

/-- **C2 (amended).** When the child is spawned but the mounted flag is not
observed true within the 10-second bound, the constructor never returns an
instance; if the child's process eventually exits once unmount is requested
(so the untimed `bp::wait_for_exit` of the cleanup returns), the constructor
runs the same unwinding as any other construction failure and fails with
`FailedToMount`, leaving no running child; if the child never exits, the
cleanup blocks forever inside `bp::wait_for_exit` and the constructor never
returns. -/
theorem mount_timeout_fails_construction (env : Env) (options : Options) (name : String)
    (w : World) (p : String)
    (hseg : w.segments.lookup name = none)
    (hreg : w.regions.lookup (GetMountStatusSharedMemoryName name) = none)
    (hexe : GetDriveExecutablePath options.drive_type = .ok p)
    (hspawn : env.spawnError = false)
    (hmount : env.childMountsInTime = false) :
    (env.childExits = true →
      launcherCtor env options name w = .error .failed_to_mount (wUnwound env options name w)
      ∧ (wUnwound env options name w).childRunning = false)
    ∧ (env.childExits = false →
      launcherCtor env options name w = .hangs (wHungWorld env options name w)) :=
  ⟨fun hexit =>
    ⟨(ctor_spawned_cases env options name w p hseg hreg hexe).2.2.1 hspawn hmount hexit, rfl⟩,
   fun hexit =>
    (ctor_spawned_cases env options name w p hseg hreg hexe).2.2.2 hspawn hmount hexit⟩

/-- Witness for `mount_timeout_fails_construction`: the concrete mount
timeout from `optsDefault` under bootstrap name `"nm"`, with a child that
exits after the unmount request. -/
theorem mount_timeout_fails_construction_witness :
    launcherCtor envTimeout optsDefault "nm" wEmpty =
      .error .failed_to_mount (wUnwound envTimeout optsDefault "nm" wEmpty)
    ∧ (wUnwound envTimeout optsDefault "nm" wEmpty).childRunning = false :=
  (mount_timeout_fails_construction envTimeout optsDefault "nm" wEmpty "local_drive"
    rfl rfl rfl rfl rfl).1 rfl

end MaidsafeDrive
